import Mathlib

/-!
Verification of the Risk Scoring and Recommendation Engine of the
screen-time-mental-health repository (src/backend/app.py and
src/category_recommendations.py).

Shallow embedding conventions:
* Python dicts holding raw survey answers are modelled as functions
  `String → Option Value`, where `Value` is either a string or a number.
* Python numbers (ints and floats) are modelled as exact rationals `ℚ`;
  the float constants 0.5, 1.5, 1.2, 0.3, 0.8, 2.5 of the source are the
  rationals 1/2, 3/2, 6/5, 3/10, 4/5, 5/2.
* The normalized feature dict consumed by `calculate_risk_scores` is
  modelled by the structure `Features` with one `Option ℚ` field per key
  that the function reads; `Option.getD` models `dict.get(key, default)`.
* A Python exception is modelled as the `Except.error` case; functions
  that can raise return `Except Unit _`.
-/

namespace ScreenTime

/-- Value stored in a survey-answer dict: a raw string label or a number. -/
inductive Value where
  | str (s : String)
  | num (q : ℚ)
deriving DecidableEq, Repr

/-- Raw survey input: a string-keyed dict, `none` when the key is absent. -/
def UserData : Type := String → Option Value

/-- Field-name remapping table of `preprocess_input` (frontend key, backend key). -/
def field_mapping : List (String × String) :=
  [("totalScreenTime", "Average total screen time per day"),
   ("socialMedia", "Social Media (hours)"),
   ("entertainment", "Entertainment (hours)"),
   ("workTime", "Work/Education (hours)"),
   ("sleepDuration", "Average sleep duration (hours)"),
   ("screenBeforeSleep", "Use screen before sleep"),
   ("exercise", "Exercise frequency"),
   ("addicted", "Feel addicted to devices"),
   ("sleepQuality", "Sleep quality (1–5)"),
   ("stress", "Stress due to screen usage"),
   ("anxious", "Anxious without device"),
   ("eyeStrain", "Eye strain or headache")]

/-- Ordinal vocabulary of the four hours-bracket features. -/
def hours_vocab : List (String × ℚ) :=
  [("Less than 1 hour", 0), ("1–2 hours", 1), ("1-2 hours", 1), ("3–4 hours", 2),
   ("3-4 hours", 2), ("5–6 hours", 3), ("5-6 hours", 3), ("More than 6 hours", 4)]

/-- Ordinal vocabulary of the sleep-duration feature. -/
def sleep_vocab : List (String × ℚ) :=
  [("Less than 5", 0), ("5–6", 1), ("5-6", 1), ("6–7", 2), ("6-7", 2),
   ("7–8", 3), ("7-8", 3), ("More than 8", 4)]

/-- Ordinal vocabulary of the screen-before-sleep feature. -/
def screen_sleep_vocab : List (String × ℚ) :=
  [("Never", 0), ("Rarely", 1), ("Sometimes", 2), ("Often", 3), ("Always", 4)]

/-- Ordinal vocabulary of the exercise-frequency feature (4-point). -/
def exercise_vocab : List (String × ℚ) :=
  [("Never", 0), ("1–2 days per week", 1), ("1-2 days per week", 1),
   ("3–4 days per week", 2), ("3-4 days per week", 2), ("Daily", 3)]

/-- Ordinal vocabulary of the felt-addiction feature (4-point). -/
def addicted_vocab : List (String × ℚ) :=
  [("No", 0), ("Not sure", 1), ("Maybe", 2), ("Yes", 3)]

/-- The `ordinal_mappings` table of `preprocess_input`: vocabulary per canonical key. -/
def ordinal_mappings (k : String) : Option (List (String × ℚ)) :=
  if k = "Average total screen time per day" then some hours_vocab
  else if k = "Social Media (hours)" then some hours_vocab
  else if k = "Entertainment (hours)" then some hours_vocab
  else if k = "Work/Education (hours)" then some hours_vocab
  else if k = "Average sleep duration (hours)" then some sleep_vocab
  else if k = "Use screen before sleep" then some screen_sleep_vocab
  else if k = "Exercise frequency" then some exercise_vocab
  else if k = "Feel addicted to devices" then some addicted_vocab
  else none

/-- Dict lookup `vocab.get(value, 0)`: a non-string value or an unknown label
gives the default `0`. -/
def vocab_lookup (vocab : List (String × ℚ)) (v : Value) : ℚ :=
  match v with
  | .str s => (vocab.lookup s).getD 0
  | .num _ => 0

/-- Optional label encoders of the predictor: for a key, an encoder taking the
raw string to a code, `Option.none` result modelling a transform failure
(which the source turns into 0 via its try/except). -/
def LabelEncoders : Type := String → Option (String → Option ℚ)

/-- The `mapped_data` dict built by the two renaming loops of
`preprocess_input`: frontend keys are renamed to backend keys (and no longer
appear under their own name); keys outside the mapping pass through, the
passthrough loop running second and therefore winning a collision. -/
def mapped_data (u : UserData) (k : String) : Option Value :=
  if field_mapping.any (fun p => p.1 = k) then none
  else
    match u k with
    | some v => some v
    | none =>
      match field_mapping.find? (fun p => p.2 = k) with
      | some p => u p.1
      | none => none

/-- Embedding of `ScreenTimePredictor.preprocess_input` (app.py lines 49 to 125):
field renaming, then ordinal encoding with default 0, then the optional label
encoders on leftover string values (encoder failure gives 0), and passthrough
for everything else. `enc = none` models a predictor whose artifacts failed to
load (`self.label_encoders is None`). -/
def preprocess_input (enc : Option LabelEncoders) (u : UserData) : UserData :=
  fun k =>
    match mapped_data u k with
    | none => none
    | some v =>
      match ordinal_mappings k with
      | some vocab => some (.num (vocab_lookup vocab v))
      | none =>
        match v, enc with
        | .str s, some e =>
          match e k with
          | some f => some (.num ((f s).getD 0))
          | none => some v
        | _, _ => some v

/-- Normalized features consumed by `calculate_risk_scores`, one field per
dict key the source reads; `none` models an absent key. A string value in one
of these numeric slots would make the Python arithmetic raise, which the
pipeline embedding handles separately (`features_of_num`). -/
structure Features where
  screenTime : Option ℚ        -- Average total screen time per day
  socialMedia : Option ℚ       -- Social Media (hours)
  entertainment : Option ℚ     -- Entertainment (hours)
  workEdu : Option ℚ           -- Work/Education (hours)
  sleepDuration : Option ℚ     -- Average sleep duration (hours)
  sleepQuality : Option ℚ      -- Sleep quality (1–5)
  screenBeforeSleep : Option ℚ -- Use screen before sleep
  exercise : Option ℚ          -- Exercise frequency
  stress : Option ℚ            -- Stress due to screen usage
  anxious : Option ℚ           -- Anxious without device
  eyeStrain : Option ℚ         -- Eye strain or headache
  addicted : Option ℚ          -- Feel addicted to devices
deriving DecidableEq, Repr

/-- Feature record with every key absent. -/
def Features.empty : Features :=
  ⟨none, none, none, none, none, none, none, none, none, none, none, none⟩

/-- User context consumed by the contextual adjustment. -/
structure Context where
  occupation : String
  field : String
  ageGroup : String
deriving DecidableEq, Repr

/-- Risk score bundle returned by `calculate_risk_scores`. -/
structure RiskScores where
  total_risk : ℚ
  screen_time_score : ℚ
  sleep_risk : ℚ
  behavioral_risk : ℚ
  work_time_score : ℚ
  contextual_adjustment : ℚ
  screen_index : ℚ
  sleep_health : ℚ
  wellbeing_score : ℚ
deriving DecidableEq, Repr

/-- Embedding of the contextual-adjustment block of `calculate_risk_scores`
(app.py lines 156 to 189), in the same accumulator style as the source:
`none` models a falsy `user_context`. -/
def contextual_adjustment (d : Features) (ctx : Option Context) : ℚ :=
  match ctx with
  | none => 0
  | some c =>
    let work_time := d.workEdu.getD 0
    if c.field = "IT" then
      let a1 : ℚ := if work_time ≥ 4 then 0 - work_time * (1/2) else 0
      let social_media_hours := d.socialMedia.getD 0
      let entertainment_hours := d.entertainment.getD 0
      let a2 : ℚ := if social_media_hours ≥ 2 then a1 + social_media_hours * (3/2) else a1
      if entertainment_hours ≥ 2 then a2 + entertainment_hours * (6/5) else a2
    else if c.occupation = "Student" then
      if work_time ≥ 4 then work_time * (3/10) else 0
    else if c.field = "Non-IT" ∧ c.occupation = "Employed" then
      if work_time ≥ 4 then work_time * (4/5) else 0
    else 0

/-- Embedding of `ScreenTimePredictor.calculate_risk_scores`
(app.py lines 127 to 203). -/
def calculate_risk_scores (d : Features) (ctx : Option Context) : RiskScores :=
  let screen_time_score :=
    d.screenTime.getD 0 * 5 + d.socialMedia.getD 0 * 3 +
    d.entertainment.getD 0 * 2 + d.workEdu.getD 0 * 1
  let sleep_risk :=
    (4 - d.sleepDuration.getD 0) * 3 + (5 - d.sleepQuality.getD 3) * 2 +
    d.screenBeforeSleep.getD 0 * 2
  let behavioral_risk :=
    d.stress.getD 0 * 2 + d.anxious.getD 0 * 2 + d.eyeStrain.getD 0 +
    d.addicted.getD 0 * 2
  let exercise_benefit := (3 - d.exercise.getD 0) * 2
  let ca := contextual_adjustment d ctx
  let total_risk :=
    screen_time_score + sleep_risk + behavioral_risk + exercise_benefit + ca
  { total_risk := max 0 total_risk
    screen_time_score := screen_time_score
    sleep_risk := sleep_risk
    behavioral_risk := behavioral_risk
    work_time_score := d.workEdu.getD 0
    contextual_adjustment := ca
    screen_index := min 100 (max 0 (total_risk * (3/2)))
    sleep_health := max 0 (100 - sleep_risk * 3)
    wellbeing_score := max 0 (100 - behavioral_risk * (5/2)) }

/-- Numeric read of one processed-dict slot: an absent key stays absent
(`dict.get` supplies the default later), a number is itself, and a string
makes the slot fail, modelling the TypeError the Python arithmetic of
`calculate_risk_scores` raises on a string operand. -/
def num_of (v : Option Value) : Except Unit (Option ℚ) :=
  match v with
  | none => .ok none
  | some (.num q) => .ok (some q)
  | some (.str _) => .error ()

/-- Extraction of the twelve numeric slots read by `calculate_risk_scores`
from a processed dict, failing exactly when one of them holds a string. -/
def features_of_num (u : UserData) : Except Unit Features := do
  let screenTime ← num_of (u "Average total screen time per day")
  let socialMedia ← num_of (u "Social Media (hours)")
  let entertainment ← num_of (u "Entertainment (hours)")
  let workEdu ← num_of (u "Work/Education (hours)")
  let sleepDuration ← num_of (u "Average sleep duration (hours)")
  let sleepQuality ← num_of (u "Sleep quality (1–5)")
  let screenBeforeSleep ← num_of (u "Use screen before sleep")
  let exercise ← num_of (u "Exercise frequency")
  let stress ← num_of (u "Stress due to screen usage")
  let anxious ← num_of (u "Anxious without device")
  let eyeStrain ← num_of (u "Eye strain or headache")
  let addicted ← num_of (u "Feel addicted to devices")
  return ⟨screenTime, socialMedia, entertainment, workEdu, sleepDuration,
    sleepQuality, screenBeforeSleep, exercise, stress, anxious, eyeStrain, addicted⟩

/-- String read with default, modelling `user_data.get(key, "")` followed only
by comparisons against string literals (a non-string value compares unequal to
every literal, as the empty string does here). -/
def get_str (u : UserData) (k : String) : String :=
  match u k with
  | some (.str s) => s
  | _ => ""

/-- The user context `predict` builds from the raw input (app.py lines 211 to 215). -/
def context_of (u : UserData) : Context :=
  ⟨get_str u "occupation", get_str u "field", get_str u "ageGroup"⟩

/-- Result of `ScreenTimePredictor.predict`. -/
structure PredictOut where
  is_healthy : Bool
  confidence : ℚ
  risk_scores : RiskScores
  processed_data : Features
deriving DecidableEq, Repr

/-- Abstraction of the model-backed classification attempt (reindex, scale,
predict, predict_proba, max): it either produces a label and a confidence or
fails, the `Except.error` case standing for any exception of that block. -/
def Model : Type := Features → Except Unit (ℤ × ℚ)

/-- Embedding of `ScreenTimePredictor.predict` (app.py lines 205 to 251):
preprocess, build the context, compute risk scores, then use the model when
loaded, falling back to `total_risk < 50` with confidence 0.75 when the model
is absent or its invocation fails. An error of the risk-score arithmetic
itself (string in a numeric slot) propagates, as in the source. -/
def predict (model : Option Model) (enc : Option LabelEncoders) (u : UserData) :
    Except Unit PredictOut :=
  match features_of_num (preprocess_input enc u) with
  | .error e => .error e
  | .ok feats =>
    let ctx := context_of u
    let rs := calculate_risk_scores feats (some ctx)
    match model with
    | some m =>
      match m feats with
      | .ok (label, conf) => .ok ⟨decide (label = 1), conf, rs, feats⟩
      | .error _ => .ok ⟨decide (rs.total_risk < 50), 3/4, rs, feats⟩
    | none => .ok ⟨decide (rs.total_risk < 50), 3/4, rs, feats⟩

/-! Embedding of `RecommendationEngine.generate_recommendations`
(app.py lines 258 to 743). Each category list is built by the same sequence
of conditional extend / insert / append operations as the source, in source
order; operations on distinct category lists commute, so each category is
given as its own pipeline. Interpolated f-strings are rendered with string
concatenation; a non-string raw value interpolates differently than in
Python, which affects only the text, never list shape or failure. -/

/-- Python `list.insert(i, x)` for a non-negative index: the index is clamped
to the length, so an index past the end appends. -/
def py_insert (l : List String) (i : ℕ) (x : String) : List String :=
  l.insertIdx (min i l.length) x

/-- Truncation toward zero, as Python `int()` on a number. -/
def rat_trunc (q : ℚ) : ℤ := if 0 ≤ q then ⌊q⌋ else ⌈q⌉

/-- Decimal digit parse of a character list: every character must be a
digit and there must be at least one. -/
def digits_to_nat (l : List Char) : Option ℕ :=
  match l with
  | [] => none
  | _ =>
    if l.all (fun c => c.isDigit) then
      some (l.foldl (fun n c => n * 10 + (c.toNat - 48)) 0)
    else none

/-- Integer parse of a string, modelling Python `int(s)` on a stripped
decimal literal: an optional minus sign followed by digits (surrounding
whitespace and underscore separators of Python are not modelled; they do
not occur in survey answers). -/
def str_to_int (s : String) : Option ℤ :=
  match s.data with
  | '-' :: rest => (digits_to_nat rest).map (fun n => -(n : ℤ))
  | l => (digits_to_nat l).map (fun n => (n : ℤ))

/-- Python `int(user_data.get(key, default))`: an absent key gives the
default, a number truncates toward zero, a string must parse as a decimal
integer, anything else raises `ValueError`. -/
def py_int (v : Option Value) (dflt : ℤ) : Except Unit ℤ :=
  match v with
  | none => .ok dflt
  | some (.num q) => .ok (rat_trunc q)
  | some (.str s) =>
    match str_to_int s with
    | some n => .ok n
    | none => .error ()

/-- Conditional `list.extend`. -/
def add_if (c : Prop) [Decidable c] (xs : List String) (l : List String) : List String :=
  if c then l ++ xs else l

/-- Conditional `list.insert(i, x)`. -/
def insert_if (c : Prop) [Decidable c] (i : ℕ) (x : String) (l : List String) : List String :=
  if c then py_insert l i x else l

/-- The bracket test `work_time in ['More than 6 hours', '5–6 hours']`. -/
abbrev work_high (w : String) : Prop := w = "More than 6 hours" ∨ w = "5–6 hours"

/-- Base wellness ladder over the raw total screen time bracket
(app.py lines 291 to 330); the final `else` arm catches everything below
`1–2 hours`, including an absent answer. -/
def wellness_base (total_screen : String) : List String :=
  if total_screen = "More than 6 hours" then
    ["🚨 CRITICAL: Your 6+ hours of daily screen time is excessive and harmful",
     "⏰ URGENT: Take a 10-minute break EVERY 30 minutes",
     "👁️ MANDATORY: Practice 20-20-20 rule - Every 20 min, look 20 feet away for 20 sec",
     "🚫 Create strict device-free zones (bedroom, bathroom, dining area)",
     "📵 Set your phone to grayscale mode after 6 PM",
     "💪 Target: Reduce screen time by 2 hours this week"]
  else if total_screen = "5–6 hours" then
    ["⚠️ Your 5-6 hours of daily screen time is above healthy limits",
     "⏰ Take 5-minute breaks every hour",
     "👁️ Practice 20-20-20 rule for eye health",
     "🚫 Establish device-free zones in your home",
     "🌅 Implement \x27Digital Sunset\x27 - no screens 1 hour before bed",
     "📊 Target: Reduce to under 4 hours daily"]
  else if total_screen = "3–4 hours" then
    ["✅ Your screen time is moderate but can improve",
     "⏰ Continue taking hourly breaks",
     "👁️ Use blue light filters in the evening",
     "📊 Track your usage to maintain awareness",
     "🎯 Try to keep it under 4 hours"]
  else if total_screen = "1–2 hours" then
    ["🌟 Great! Your screen time is within healthy limits",
     "✅ Keep maintaining these excellent habits",
     "📊 Continue tracking to stay accountable",
     "💡 Consider sharing your strategies with others"]
  else
    ["🏆 Outstanding! Your screen time is exceptionally healthy",
     "✨ You\x27re a role model for digital wellness",
     "📚 Consider mentoring others on healthy tech habits",
     "🎯 Maintain this excellent balance"]

/-- The wellness category pipeline: base ladder, stress insert, sleep append,
field blocks, student block, ergonomic block, industry insert, study block
(app.py lines 291 to 338, 394 to 451, 469 to 495, 581 to 585, 628 to 637). -/
def general_wellness_of (total_screen : String) (stress_level : ℤ)
    (sleep_before_screen field work_time occupation : String) : List String :=
  add_if (occupation = "Student" ∧ work_high work_time)
    ["📚 STUDY EFFICIENCY: High screen time suggests inefficient study methods",
     "✍️ ACTIVE LEARNING: Handwrite notes, use flashcards, teach others",
     "📖 PRINT MATERIALS: Use physical textbooks when possible",
     "🎯 FOCUSED SESSIONS: 90-minute deep work blocks with 20-minute breaks",
     "👥 STUDY GROUPS: Collaborative learning reduces individual screen time"] <|
  insert_if (field = "IT" ∧ work_high work_time) 0
    "🎯 INDUSTRY REALITY: Your profession requires high screen time - we focus on OPTIMIZATION, not reduction" <|
  add_if (work_time = "3–4 hours" ∧ ¬work_high work_time)
    ["💼 " ++ field ++ " PROFESSIONAL: Moderate work screen time - maintain good posture"] <|
  add_if (work_high work_time ∧ ¬(field = "IT"))
    ["💼 GENERAL ERGONOMICS: Proper chair height, feet flat on floor",
     "📱 PHONE POSTURE: Hold phone at eye level to avoid neck strain"] <|
  add_if (work_high work_time ∧ field = "IT")
    ["💻 IT ERGONOMICS: Monitor 20-26 inches away, top of screen at eye level",
     "⌨️ KEYBOARD POSITION: Elbows at 90 degrees, wrists straight",
     "🖱️ MOUSE TECHNIQUE: Use whole arm, not just wrist movements"] <|
  add_if ((occupation = "Unemployed" ∨ occupation = "Retired") ∧
      (total_screen = "More than 6 hours" ∨ total_screen = "5–6 hours"))
    ["🏠 " ++ occupation.toUpper ++ " LIFESTYLE: High screen time may indicate boredom/isolation",
     "🎯 PURPOSE: Replace screen time with meaningful activities",
     "🤝 SOCIAL CONNECTION: Join clubs, volunteer - real-world interaction",
     "🌱 HOBBIES: Develop non-digital interests - gardening, crafts, sports",
     "📚 LEARNING: Take in-person classes instead of online courses"] <|
  add_if (occupation = "Student" ∧ work_high work_time)
    ["🎓 STUDENT ALERT: High study screen time - balance is crucial",
     "📚 STUDY SMART: Use active recall instead of passive screen reading",
     "✍️ HANDWRITE NOTES: Better retention and less screen time",
     "📖 PHYSICAL BOOKS: Use printed materials when possible",
     "👥 STUDY GROUPS: In-person collaboration reduces individual screen time",
     "⏰ TIME BLOCKING: 45 min study, 15 min screen-free break"] <|
  add_if (¬(field = "IT") ∧ field = "Non-IT" ∧ work_high work_time)
    ["💼 NON-IT PROFESSIONAL: High screen time unusual for your field",
     "🤔 ANALYZE: Is this screen time truly necessary for your work?",
     "📊 OPTIMIZE: Look for ways to reduce digital tasks - use phone calls instead of emails",
     "⏰ BATCH WORK: Group screen tasks together, then take longer breaks",
     "📝 ANALOG ALTERNATIVES: Use pen and paper when possible",
     "🤝 FACE-TO-FACE: Replace video calls with in-person meetings when possible"] <|
  add_if (field = "IT" ∧ ¬work_high work_time ∧ work_time = "3–4 hours")
    ["💻 IT PROFESSIONAL: Moderate work screen time - good balance!",
     "🎯 MAINTAIN: Keep work screen time focused and efficient",
     "👁️ PREVENTION: Use 20-20-20 rule religiously to prevent eye strain",
     "🪑 ERGONOMICS: Proper setup prevents long-term issues"] <|
  add_if (field = "IT" ∧ work_high work_time)
    ["💻 IT PROFESSIONAL ALERT: High work screen time is unavoidable in your field",
     "🎯 FOCUS: Since you can\x27t reduce work time, optimize QUALITY of screen usage",
     "🪑 CRITICAL: Invest in ergonomic setup - monitor at eye level, proper chair",
     "⏰ MANDATORY: Pomodoro technique - 25 min coding, 5 min break (non-negotiable)",
     "👁️ DEVELOPER SPECIAL: Use dark themes, increase font size, reduce eye strain",
     "🌙 CODE CURFEW: No coding 2 hours before bed - blue light disrupts sleep",
     "💪 PROGRAMMER FITNESS: Desk exercises every hour - neck rolls, shoulder shrugs"] <|
  add_if (sleep_before_screen = "Always" ∨ sleep_before_screen = "Often")
    ["😴 WARNING: Using screens before sleep is severely harming your rest - Stop 1-2 hours before bed"] <|
  insert_if (4 ≤ stress_level) 1
    ("😰 High stress level (" ++ toString stress_level ++
      "/5) detected - Screen breaks are crucial for your mental health") <|
  wellness_base total_screen

/-- Base app-lock ladder over the social media bracket (app.py lines 342 to 381). -/
def app_lock_base (social_media : String) : List String :=
  if social_media = "More than 6 hours" then
    ["📱 EMERGENCY: 6+ hours on social media is extremely harmful to mental health",
     "🔒 IMMEDIATELY set 1-hour daily limit on ALL social apps",
     "⏱️ Block Instagram, TikTok, Facebook completely after limit reached",
     "⚫ Force grayscale mode on your phone permanently",
     "🔔 DELETE social media apps for a 1-week digital detox",
     "📅 Allow access ONLY during 12-1 PM, no exceptions"]
  else if social_media = "5–6 hours" then
    ["📱 CRITICAL: 5-6 hours on social media is excessive",
     "⏱️ Set strict 2-hour daily limit on social apps NOW",
     "🔒 Enable app timers: Instagram (30min), TikTok (30min), Twitter (30min)",
     "⚫ Switch to grayscale after 8 PM",
     "🔔 Disable ALL social media notifications immediately",
     "📅 Schedule specific windows: 12-1 PM and 6-7 PM only"]
  else if social_media = "3–4 hours" then
    ["📱 3-4 hours on social media is above healthy limits",
     "⏱️ Reduce to 2 hours daily using app timers",
     "🔔 Turn off all non-essential notifications",
     "⚫ Use grayscale mode after 9 PM",
     "🎯 Set a 90-minute daily limit this week"]
  else if social_media = "1–2 hours" then
    ["✅ Your 1-2 hours of social media is reasonable",
     "📱 Maintain these current healthy limits",
     "🎯 Consider reducing to under 1 hour for even better well-being",
     "🔔 Keep notifications minimal"]
  else
    ["🌟 Excellent! Your social media usage is exemplary",
     "✅ You\x27ve achieved great digital discipline",
     "💡 Share your strategies with others who struggle",
     "🎯 Maintain this healthy boundary"]

/-- App-lock category pipeline (app.py lines 342 to 388, 406 to 412, 453 to
458, 586 to 590). -/
def app_lock_of (social_media entertainment field work_time occupation : String) : List String :=
  insert_if (field = "IT" ∧ work_high work_time) 0
    "💻 IT PROFESSIONAL STRATEGY: Since work screens are unavoidable, ZERO tolerance for recreational screens" <|
  add_if (occupation = "Student" ∧ work_high work_time)
    ["📱 STUDENT DISCIPLINE: Block social media during study hours",
     "🎯 FOCUS APPS: Use Forest, Cold Turkey during study sessions",
     "📺 NO NETFLIX: Entertainment screens compete with study effectiveness",
     "🎮 GAMING LIMITS: Maximum 1 hour after completing all studies"] <|
  add_if (field = "IT" ∧ work_high work_time)
    ["📱 IT WORKER STRATEGY: Since work screen time is high, ELIMINATE recreational screens",
     "🚫 ZERO TOLERANCE: No social media during work breaks - use breaks for eye rest",
     "📺 EVENING RULE: No entertainment screens after work - your eyes need recovery",
     "🎮 GAMING BAN: If you\x27re a developer, avoid gaming - you\x27ve had enough screen time",
     "📱 PHONE DISCIPLINE: Use phone only for calls/messages, not browsing"] <|
  add_if (entertainment = "3–4 hours" ∧
      ¬(entertainment = "More than 6 hours" ∨ entertainment = "5–6 hours"))
    ["🎬 Entertainment time (" ++ entertainment ++ ") can be reduced - Try 2 hours max"] <|
  insert_if (entertainment = "More than 6 hours" ∨ entertainment = "5–6 hours") 1
    ("🎮 Your entertainment time (" ++ entertainment ++ ") is excessive - Set 2-hour daily limit") <|
  app_lock_base social_media

/-- Base meditation ladder over stress and anxiety (app.py lines 505 to 529);
every arm extends, so this always adds entries. -/
def meditation_ladder (stress anxious : ℤ) (l : List String) : List String :=
  if 4 ≤ stress ∨ 4 ≤ anxious then
    l ++ ["🧘 DAILY REQUIREMENT: 15-minute guided meditation (Your stress: " ++ toString stress ++
            "/5, Anxiety: " ++ toString anxious ++ "/5)",
          "🫁 Box breathing 4x daily: Inhale 4s → Hold 4s → Exhale 4s → Hold 4s",
          "🌙 30-minute evening yoga specifically for stress relief",
          "🚶 Two 20-minute outdoor walks WITHOUT phone - non-negotiable",
          "💆 Progressive muscle relaxation before bed (YouTube: \x27PMR guided\x27)",
          "🎵 Listen to 432Hz healing music during all screen breaks",
          "📝 5-minute anxiety journaling every evening before bed"]
  else if 3 ≤ stress ∨ 3 ≤ anxious then
    l ++ ["🧘 Daily 10-minute meditation recommended (Stress: " ++ toString stress ++
            "/5, Anxiety: " ++ toString anxious ++ "/5)",
          "🫁 Practice box breathing during stressful moments (3-4 times daily)",
          "🌙 15-minute evening yoga or stretching routine",
          "🚶 Daily 20-minute mindful walk without devices",
          "💆 Try progressive muscle relaxation 3x per week"]
  else
    l ++ ["✨ Your stress (" ++ toString stress ++ "/5) and anxiety (" ++ toString anxious ++
            "/5) levels are healthy!",
          "🧘 Continue your current wellness routine",
          "🔄 Explore new meditation techniques for variety",
          "📚 Consider deepening your mindfulness practice"]

/-- Exercise ladder inside the meditation category (app.py lines 538 to 550);
the final arm is a bare `else`, so it also catches an absent answer. -/
def exercise_ladder (exercise_freq : String) (l : List String) : List String :=
  if exercise_freq = "Never" then
    l ++ ["💪 URGENT: You\x27re not exercising at all - This is critical!",
          "🏃 START TODAY: Take a 20-minute walk right now",
          "🎯 GOAL: Exercise 3-4 days per week minimum for mental health",
          "🏋️ Even 10 minutes daily makes a huge difference"]
  else if exercise_freq = "1–2 days per week" then
    py_insert l 2 "💪 Good start! Increase to 3-4 days per week for optimal mental health"
  else if exercise_freq = "3–4 days per week" then
    l ++ ["💪 Great exercise routine! Maintain 3-4 days per week"]
  else
    l ++ ["🏆 Excellent! Daily exercise is optimal for mental health"]

/-- Meditation category pipeline (app.py lines 414 to 419, 497 to 556, 592
to 596). -/
def meditation_of (field work_time : String) (stress anxious eye_strain sleep_quality : ℤ) (exercise_freq : String) : List String :=
  insert_if (field = "IT" ∧ work_high work_time) 0
    "👁️ IT EYE CARE PROTOCOL: Your field has 1.5x higher eye strain risk - follow these religiously" <|
  add_if (3 ≤ eye_strain ∧ ¬(4 ≤ eye_strain))
    ["👁️ Moderate eye strain (" ++ toString eye_strain ++ "/5) - Increase breaks, adjust lighting"] <|
  insert_if (4 ≤ eye_strain) 0
    ("👁️ SEVERE eye strain (" ++ toString eye_strain ++ "/5) - Take immediate breaks, use eye drops, reduce brightness") <|
  exercise_ladder exercise_freq <|
  add_if (sleep_quality = 3 ∧ ¬(sleep_quality ≤ 2))
    ["😴 Sleep quality (" ++ toString sleep_quality ++ "/5) needs improvement - Evening relaxation routine recommended"] <|
  insert_if (sleep_quality ≤ 2) 0
    ("😴 CRITICAL: Sleep quality (" ++ toString sleep_quality ++ "/5) is very poor - Try bedtime yoga & sleep meditation apps") <|
  meditation_ladder stress anxious <|
  add_if (field = "IT" ∧ work_high work_time)
    ["🧘 DEVELOPER MEDITATION: 5-minute guided meditation between coding sessions",
     "👁️ EYE YOGA: Palming technique - cover eyes with palms for 30 seconds every hour",
     "🚶 WALKING MEETINGS: Take calls while walking, not sitting at desk",
     "🌿 NATURE BREAKS: Step outside during breaks - no indoor screen alternatives"] <|
  []

/-- Device-addiction ladder of the parental category (app.py lines 640 to
672); every arm extends, the `else` arm covering `No` and anything else. -/
def addiction_ladder (addicted : String) (l : List String) : List String :=
  if addicted = "Yes" then
    l ++ ["🚨 You\x27ve identified device addiction - This requires immediate action",
          "🤝 URGENT: Find an accountability partner for DAILY check-ins",
          "📞 CONSIDER: Professional help - Speak with a therapist about screen addiction",
          "🌳 Use aggressive blocking: Cold Turkey (blocks everything), Freedom app",
          "👥 JOIN NOW: r/nosurf community, Digital Detox support groups",
          "📊 Share your screen time with someone you trust EVERY single day",
          "🏆 30-day challenge: Reduce screen time by 50%",
          "💰 Accountability: Donate $10 for every day you exceed limits"]
  else if addicted = "Maybe" then
    l ++ ["⚠️ You suspect device addiction - Take this seriously before it worsens",
          "🤝 Find an accountability partner for weekly check-ins",
          "🌳 Try focus apps: Forest, Freedom, Cold Turkey Blocker",
          "👥 Join digital wellness communities: r/digitalminimalism",
          "📊 Track daily and share progress weekly",
          "🏆 Set challenges with friends (lowest screen time wins rewards)"]
  else if addicted = "Not sure" then
    l ++ ["🤔 Uncertain about addiction? Monitor yourself for 2 weeks",
          "📊 Track everything and assess patterns honestly",
          "🤝 Consider finding an accountability buddy",
          "👥 Join supportive communities for guidance"]
  else
    l ++ ["✅ Good awareness - you don\x27t feel addicted",
          "📊 Continue monitoring to maintain healthy habits",
          "🤝 Help others who struggle with screen addiction"]

/-- Age-bracket ladder of the parental category (app.py lines 675 to 732);
an unrecognized or absent bracket adds nothing. -/
def age_ladder (age_group occupation field : String) (l : List String) : List String :=
  if age_group = "18–24" then
    if occupation = "Student" then
      l ++ ["🎓 STUDENT (18-24): Critical time for building healthy digital habits",
            "📚 ACADEMIC SUCCESS: Screen discipline directly impacts grades",
            "👥 PEER ACCOUNTABILITY: Study groups with screen-time goals",
            "💼 CAREER PREP: Develop focus skills employers value"]
    else
      l ++ ["👥 YOUNG PROFESSIONAL: Build peer accountability with colleagues",
            "💼 CAREER FOCUS: Replace social media time with skill-building",
            "🎯 Your age group is most vulnerable to screen addiction - be vigilant"]
  else if age_group = "25–34" then
    if field = "IT" then
      l ++ ["💻 IT PROFESSIONAL (25-34): High-earning potential requires screen discipline",
            "🚀 CAREER GROWTH: Focus screen time on learning new technologies",
            "⚖️ WORK-LIFE BALANCE: Prevent burnout with strict boundaries"]
    else
      l ++ ["💼 PROFESSIONAL PRIME: Prioritize career-advancing screen usage",
            "🤝 INDUSTRY NETWORKING: Use screens for professional development",
            "📈 PRODUCTIVITY FOCUS: Track how screen habits affect work performance"]
  else if age_group = "35–44" ∨ age_group = "45–54" then
    let l := l ++ ["👨‍👩‍👧‍👦 PARENT & PROFESSIONAL: You\x27re modeling behavior for your children",
                   "🍽️ FAMILY RULES: Device-free meals and family time",
                   "💼 LEADERSHIP: Show younger colleagues healthy screen habits",
                   "📱 PARENTAL CONTROLS: Use Screen Time (iOS) or Family Link (Android)",
                   "🎯 FAMILY CHALLENGES: Create screen-time reduction competitions"]
    if field = "IT" then
      l ++ ["💻 IT PARENT SPECIAL: Teach kids that high work screen time doesn\x27t justify recreational excess"]
    else l
  else if age_group = "55+" then
    if occupation = "Retired" then
      l ++ ["🏖️ RETIREMENT WISDOM: Use technology to enhance, not replace, real experiences",
            "👨‍👩‍👧‍👦 GRANDPARENT ROLE: Model healthy tech use for grandchildren",
            "🌍 EXPLORATION: Use screens to plan real-world activities, not replace them",
            "🤝 SOCIAL CONNECTION: Video calls with family, but prioritize in-person visits"]
    else
      l ++ ["👨‍👩‍👧‍👦 SENIOR PROFESSIONAL: Mentor younger generations on digital balance",
            "💡 WISDOM SHARING: Your pre-digital experience is valuable - share it",
            "⚖️ PERSPECTIVE: Balance technology benefits with traditional approaches"]
  else l

/-- Parental category pipeline (app.py lines 460 to 467, 598 to 626, 639 to
741); `total_risk` is read from the prediction risk bundle. -/
def parental_of (occupation field work_time addicted age_group : String) (total_risk : ℚ) : List String :=
  insert_if (50 < total_risk ∧ ¬(60 < total_risk)) 0
    ("⚠️ ELEVATED RISK (" ++ toString (rat_trunc total_risk) ++
      "/100) - Take action this week, start with accountability partner") <|
  insert_if (60 < total_risk ∧ ¬(70 < total_risk)) 0
    ("🚨 HIGH RISK (" ++ toString (rat_trunc total_risk) ++
      "/100) - Immediate intervention needed, get support NOW") <|
  insert_if (70 < total_risk) 0
    ("🚨🚨🚨 CRITICAL RISK (" ++ toString (rat_trunc total_risk) ++
      "/100) - Seek professional help immediately!") <|
  age_ladder age_group occupation field <|
  addiction_ladder addicted <|
  add_if (occupation = "Employed" ∧ work_high work_time ∧ ¬(field = "IT"))
    ["💼 PROFESSIONAL BOUNDARIES: Question if all screen time is truly necessary",
     "📞 PHONE FIRST: Call instead of email when possible",
     "📝 ANALOG BACKUP: Use paper for brainstorming and planning",
     "🤝 IN-PERSON PRIORITY: Face-to-face meetings over video calls"] <|
  add_if (occupation = "Employed" ∧ work_high work_time ∧ field = "IT")
    ["⚖️ IT WORK-LIFE SEPARATION: Use different devices for work and personal",
     "🖥️ DUAL SETUP: Work computer vs personal computer - never mix",
     "📱 PHONE RULES: Work apps only during work hours",
     "🌅 DIGITAL SUNRISE: Start work with intention, not mindless browsing",
     "🌙 DIGITAL SUNSET: Hard cutoff - no work screens after 7 PM"] <|
  insert_if ((addicted = "Yes" ∨ addicted = "Maybe") ∧ field = "IT") 0
    "💻 IT ADDICTION PARADOX: You need screens for work but feel addicted - separate work and personal usage completely" <|
  add_if (occupation = "Employed")
    ["💼 WORKING PROFESSIONAL (" ++ field ++ "): Work-life screen balance is crucial",
     "⚖️ BOUNDARIES: Strict separation between work and personal screen time",
     "📵 AFTER-WORK DETOX: No work emails/messages after 6 PM",
     "🏠 HOME SANCTUARY: Create device-free zones at home"] <|
  []

/-- Category-keyed recommendation mapping of the app.py engine; the source
initializes all seven keys and returns the same dict object. -/
structure Recommendations where
  work_screen_recommendations : List String
  social_media_recommendations : List String
  entertainment_recommendations : List String
  general_wellness_tips : List String
  app_lock_suggestions : List String
  meditation_exercises : List String
  parental_controls : List String
deriving DecidableEq, Repr

/-- Pure body of `generate_recommendations` after the `int()` conversions
have succeeded: each category list as its source-ordered pipeline. The three
category keys the app.py engine initializes but never touches stay empty. -/
def build_recommendations (p : PredictOut) (u : UserData)
    (stress_level anxious eye_strain sleep_quality : ℤ) : Recommendations :=
  let total_screen := get_str u "totalScreenTime"
  let sleep_before_screen := get_str u "screenBeforeSleep"
  let age_group := get_str u "ageGroup"
  let addicted := get_str u "addicted"
  let work_time := get_str u "workTime"
  let occupation := get_str u "occupation"
  let field := get_str u "field"
  let social_media := get_str u "socialMedia"
  let entertainment := get_str u "entertainment"
  let exercise_freq := get_str u "exercise"
  { work_screen_recommendations := []
    social_media_recommendations := []
    entertainment_recommendations := []
    general_wellness_tips :=
      general_wellness_of total_screen stress_level sleep_before_screen field work_time occupation
    app_lock_suggestions := app_lock_of social_media entertainment field work_time occupation
    meditation_exercises :=
      meditation_of field work_time stress_level anxious eye_strain sleep_quality exercise_freq
    parental_controls :=
      parental_of occupation field work_time addicted age_group p.risk_scores.total_risk }

/-- Embedding of `RecommendationEngine.generate_recommendations`: the four
`int(user_data.get(..))` conversions (app.py lines 280 and 498 to 502; the
stress value is converted twice in the source with the same result) can each
raise, and any such failure aborts the whole call with an exception. -/
def generate_recommendations (p : PredictOut) (u : UserData) : Except Unit Recommendations :=
  match py_int (u "stress") 3 with
  | .error e => .error e
  | .ok stress_level =>
    match py_int (u "anxious") 3 with
    | .error e => .error e
    | .ok anxious =>
      match py_int (u "eyeStrain") 3 with
      | .error e => .error e
      | .ok eye_strain =>
        match py_int (u "sleepQuality") 3 with
        | .error e => .error e
        | .ok sleep_quality =>
          .ok (build_recommendations p u stress_level anxious eye_strain sleep_quality)

/-- The conversion `int(value)` cannot raise: the value is absent, a number,
or a string that parses as a decimal integer. -/
def int_safe (v : Option Value) : Prop :=
  match v with
  | some (.str s) => (str_to_int s).isSome = true
  | _ => True

/-! Helper definitions used in theorem statements. -/

/-- The IT-branch contextual adjustment as the spec table states it
(sum of a work subtraction and social/entertainment penalties). -/
def it_adjustment (d : Features) : ℚ :=
  (if d.workEdu.getD 0 ≥ 4 then -((1/2) * d.workEdu.getD 0) else 0) +
  (if d.socialMedia.getD 0 ≥ 2 then (3/2) * d.socialMedia.getD 0 else 0) +
  (if d.entertainment.getD 0 ≥ 2 then (6/5) * d.entertainment.getD 0 else 0)

/-- The Student-branch contextual adjustment of the spec table. -/
def student_adjustment (d : Features) : ℚ :=
  if d.workEdu.getD 0 ≥ 4 then (3/10) * d.workEdu.getD 0 else 0

/-- The Non-IT-Employed-branch contextual adjustment of the spec table. -/
def nonit_employed_adjustment (d : Features) : ℚ :=
  if d.workEdu.getD 0 ≥ 4 then (4/5) * d.workEdu.getD 0 else 0

/-- A raw input holding exactly one answer. -/
def singleton_input (k : String) (v : Value) : UserData :=
  fun k2 => if k2 = k then some v else none

/-- A raw input with every answer absent. -/
def empty_input : UserData := fun _ => none

/-- The documented ordinal table of spec section 4.1, with both the en-dash
and the hyphen variant of every range label: (feature, label, ordinal). -/
def doc_table : List (String × String × ℚ) :=
  (["Average total screen time per day", "Social Media (hours)",
    "Entertainment (hours)", "Work/Education (hours)"].flatMap fun f =>
    [(f, "Less than 1 hour", (0:ℚ)), (f, "1–2 hours", 1), (f, "1-2 hours", 1),
     (f, "3–4 hours", 2), (f, "3-4 hours", 2), (f, "5–6 hours", 3),
     (f, "5-6 hours", 3), (f, "More than 6 hours", 4)]) ++
  [("Average sleep duration (hours)", "Less than 5", 0),
   ("Average sleep duration (hours)", "5–6", 1),
   ("Average sleep duration (hours)", "5-6", 1),
   ("Average sleep duration (hours)", "6–7", 2),
   ("Average sleep duration (hours)", "6-7", 2),
   ("Average sleep duration (hours)", "7–8", 3),
   ("Average sleep duration (hours)", "7-8", 3),
   ("Average sleep duration (hours)", "More than 8", 4),
   ("Use screen before sleep", "Never", 0),
   ("Use screen before sleep", "Rarely", 1),
   ("Use screen before sleep", "Sometimes", 2),
   ("Use screen before sleep", "Often", 3),
   ("Use screen before sleep", "Always", 4),
   ("Exercise frequency", "Never", 0),
   ("Exercise frequency", "1–2 days per week", 1),
   ("Exercise frequency", "1-2 days per week", 1),
   ("Exercise frequency", "3–4 days per week", 2),
   ("Exercise frequency", "3-4 days per week", 2),
   ("Exercise frequency", "Daily", 3),
   ("Feel addicted to devices", "No", 0),
   ("Feel addicted to devices", "Not sure", 1),
   ("Feel addicted to devices", "Maybe", 2),
   ("Feel addicted to devices", "Yes", 3)]

/-- Every value a present optional field may hold lies in the given range
(an absent field imposes nothing). -/
def InRange (o : Option ℚ) (lo hi : ℚ) : Prop :=
  ∀ v, o = some v → lo ≤ v ∧ v ≤ hi

/-- Valid ordinal ranges of the documented vocabularies: hour and sleep
ordinals in 0..4, exercise and addiction ordinals in 0..3, the 1–5 scale
answers in 1..5. -/
def ValidFeatures (d : Features) : Prop :=
  InRange d.screenTime 0 4 ∧ InRange d.socialMedia 0 4 ∧
  InRange d.entertainment 0 4 ∧ InRange d.workEdu 0 4 ∧
  InRange d.sleepDuration 0 4 ∧ InRange d.screenBeforeSleep 0 4 ∧
  InRange d.exercise 0 3 ∧ InRange d.addicted 0 3 ∧
  InRange d.sleepQuality 1 5 ∧ InRange d.stress 1 5 ∧
  InRange d.anxious 1 5 ∧ InRange d.eyeStrain 1 5

/-! Theorems. -/

/-- C1: for every normalized feature mapping, `calculate_risk_scores`
computes the four weighted sub-scores by the documented linear formulas and
returns `total_risk` as their sum plus the contextual adjustment, floored at
zero. -/
theorem c1_risk_score_formulas (d : Features) (ctx : Option Context) :
    (calculate_risk_scores d ctx).screen_time_score =
      5 * d.screenTime.getD 0 + 3 * d.socialMedia.getD 0 +
        2 * d.entertainment.getD 0 + 1 * d.workEdu.getD 0 ∧
    (calculate_risk_scores d ctx).sleep_risk =
      3 * (4 - d.sleepDuration.getD 0) + 2 * (5 - d.sleepQuality.getD 3) +
        2 * d.screenBeforeSleep.getD 0 ∧
    (calculate_risk_scores d ctx).behavioral_risk =
      2 * d.stress.getD 0 + 2 * d.anxious.getD 0 + d.eyeStrain.getD 0 +
        2 * d.addicted.getD 0 ∧
    (calculate_risk_scores d ctx).total_risk =
      max 0 ((calculate_risk_scores d ctx).screen_time_score +
        (calculate_risk_scores d ctx).sleep_risk +
        (calculate_risk_scores d ctx).behavioral_risk +
        2 * (3 - d.exercise.getD 0) +
        (calculate_risk_scores d ctx).contextual_adjustment) := by
  refine ⟨by simp [calculate_risk_scores]; ring, by simp [calculate_risk_scores]; ring,
    by simp [calculate_risk_scores]; ring, ?_⟩
  simp only [calculate_risk_scores]
  congr 1
  ring

/-- C5 counterexample: in `calculate_risk_scores`, leaving the 1–5 stress
answer out does not give the same scores as supplying the midpoint 3 (the
source defaults stress to 0 there), refuting the claimed midpoint default at
a concrete input. -/
theorem c5_counterexample_missing_stress :
    (calculate_risk_scores Features.empty none).total_risk = 22 ∧
    (calculate_risk_scores { Features.empty with stress := some 3 } none).total_risk = 28 ∧
    (calculate_risk_scores Features.empty none).total_risk ≠
      (calculate_risk_scores { Features.empty with stress := some 3 } none).total_risk := by
  norm_num [calculate_risk_scores, contextual_adjustment, Features.empty]

/-- C5 amended: in `calculate_risk_scores` a missing sleep-quality answer
defaults to the midpoint 3, while a missing stress, anxiety or eye-strain
answer defaults to 0, and every missing categorical ordinal defaults to 0:
absence of the key yields exactly the scores of the stated default value. -/
theorem c5_amended_defaults (d : Features) (ctx : Option Context) :
    calculate_risk_scores { d with sleepQuality := none } ctx =
      calculate_risk_scores { d with sleepQuality := some 3 } ctx ∧
    calculate_risk_scores { d with stress := none } ctx =
      calculate_risk_scores { d with stress := some 0 } ctx ∧
    calculate_risk_scores { d with anxious := none } ctx =
      calculate_risk_scores { d with anxious := some 0 } ctx ∧
    calculate_risk_scores { d with eyeStrain := none } ctx =
      calculate_risk_scores { d with eyeStrain := some 0 } ctx ∧
    calculate_risk_scores { d with screenTime := none } ctx =
      calculate_risk_scores { d with screenTime := some 0 } ctx ∧
    calculate_risk_scores { d with socialMedia := none } ctx =
      calculate_risk_scores { d with socialMedia := some 0 } ctx ∧
    calculate_risk_scores { d with entertainment := none } ctx =
      calculate_risk_scores { d with entertainment := some 0 } ctx ∧
    calculate_risk_scores { d with workEdu := none } ctx =
      calculate_risk_scores { d with workEdu := some 0 } ctx ∧
    calculate_risk_scores { d with sleepDuration := none } ctx =
      calculate_risk_scores { d with sleepDuration := some 0 } ctx ∧
    calculate_risk_scores { d with screenBeforeSleep := none } ctx =
      calculate_risk_scores { d with screenBeforeSleep := some 0 } ctx ∧
    calculate_risk_scores { d with exercise := none } ctx =
      calculate_risk_scores { d with exercise := some 0 } ctx ∧
    calculate_risk_scores { d with addicted := none } ctx =
      calculate_risk_scores { d with addicted := some 0 } ctx :=
  ⟨rfl, rfl, rfl, rfl, rfl, rfl, rfl, rfl, rfl, rfl, rfl, rfl⟩

/-- C6 counterexample: with field IT and work ordinal 2 (the claimed
threshold), the contextual adjustment is 0, not the claimed subtraction of
0.5 times the work ordinal — the source requires the work ordinal to be at
least 4. -/
theorem c6_counterexample_work_threshold :
    contextual_adjustment { Features.empty with workEdu := some 2 }
        (some ⟨"", "IT", ""⟩) = 0 ∧
    contextual_adjustment { Features.empty with workEdu := some 2 }
        (some ⟨"", "IT", ""⟩) ≠ -((1/2) * 2) := by
  have h : contextual_adjustment { Features.empty with workEdu := some 2 }
      (some ⟨"", "IT", ""⟩) = 0 := by decide
  rw [h]
  norm_num

/-- C6 amended: the work-ordinal threshold of all three work-based
adjustments is 4, not 2. With field IT the adjustment subtracts 0.5 times
the work ordinal when it is at least 4 and adds 1.5 times the social-media
ordinal and 1.2 times the entertainment ordinal when those are at least 2;
a Student (when the field is not IT) gets 0.3 times the work ordinal, a
Non-IT Employed user 0.8 times the work ordinal, both only when the work
ordinal is at least 4; with no context or none of these conditions the
adjustment is 0. -/
theorem c6_amended_contextual (d : Features) (c : Context) :
    contextual_adjustment d none = 0 ∧
    (c.field = "IT" → contextual_adjustment d (some c) = it_adjustment d) ∧
    (c.field ≠ "IT" → c.occupation = "Student" →
      contextual_adjustment d (some c) = student_adjustment d) ∧
    (c.field = "Non-IT" → c.occupation = "Employed" →
      contextual_adjustment d (some c) = nonit_employed_adjustment d) ∧
    (c.field ≠ "IT" → c.occupation ≠ "Student" →
      ¬(c.field = "Non-IT" ∧ c.occupation = "Employed") →
      contextual_adjustment d (some c) = 0) := by
  refine ⟨rfl, ?_, ?_, ?_, ?_⟩
  · intro h
    simp only [contextual_adjustment, it_adjustment, h, if_true]
    split_ifs <;> ring
  · intro h1 h2
    simp only [contextual_adjustment, student_adjustment]
    rw [if_neg h1, if_pos h2]
    split_ifs <;> ring
  · intro h1 h2
    have hne : c.field ≠ "IT" := by rw [h1]; decide
    have hns : c.occupation ≠ "Student" := by rw [h2]; decide
    simp only [contextual_adjustment, nonit_employed_adjustment]
    rw [if_neg hne, if_neg hns, if_pos ⟨h1, h2⟩]
    split_ifs <;> ring
  · intro h1 h2 h3
    simp [contextual_adjustment, h1, h2, h3]

/-- C6 witness: the amended adjustment table applied at work ordinal 4 under
each of the four context shapes. -/
theorem c6_amended_contextual_witness :
    contextual_adjustment Features.empty none = 0 ∧
    contextual_adjustment { Features.empty with workEdu := some 4 }
        (some ⟨"", "IT", ""⟩) =
      it_adjustment { Features.empty with workEdu := some 4 } ∧
    contextual_adjustment { Features.empty with workEdu := some 4 }
        (some ⟨"Student", "Non-IT", ""⟩) =
      student_adjustment { Features.empty with workEdu := some 4 } ∧
    contextual_adjustment { Features.empty with workEdu := some 4 }
        (some ⟨"Employed", "Non-IT", ""⟩) =
      nonit_employed_adjustment { Features.empty with workEdu := some 4 } ∧
    contextual_adjustment Features.empty (some ⟨"", "", ""⟩) = 0 := by
  refine ⟨(c6_amended_contextual Features.empty ⟨"", "", ""⟩).1, ?_, ?_, ?_, ?_⟩
  · exact (c6_amended_contextual { Features.empty with workEdu := some 4 }
      ⟨"", "IT", ""⟩).2.1 rfl
  · exact (c6_amended_contextual { Features.empty with workEdu := some 4 }
      ⟨"Student", "Non-IT", ""⟩).2.2.1 (by decide) rfl
  · exact (c6_amended_contextual { Features.empty with workEdu := some 4 }
      ⟨"Employed", "Non-IT", ""⟩).2.2.2.1 rfl rfl
  · exact (c6_amended_contextual Features.empty ⟨"", "", ""⟩).2.2.2.2
      (by decide) (by decide) (by decide)

/-- C10: the three contextual-adjustment branches are mutually exclusive
elif arms with field IT first, so the adjustment is exactly the value of the
first matching branch, and a user whose field is IT always gets the IT
branch whatever the occupation (never the Student or Non-IT Employed
adjustment). -/
theorem c10_elif_precedence (d : Features) (c : Context) :
    contextual_adjustment d (some c) =
      (if c.field = "IT" then it_adjustment d
       else if c.occupation = "Student" then student_adjustment d
       else if c.field = "Non-IT" ∧ c.occupation = "Employed" then
         nonit_employed_adjustment d
       else 0) ∧
    (∀ occ age, contextual_adjustment d (some ⟨occ, "IT", age⟩) = it_adjustment d) := by
  constructor
  · simp only [contextual_adjustment, it_adjustment, student_adjustment,
      nonit_employed_adjustment]
    split_ifs <;> ring
  · intro occ age
    simp only [contextual_adjustment, it_adjustment, if_pos]
    split_ifs <;> ring

/-- The contextual adjustment reads only the work, social-media and
entertainment ordinals. -/
theorem contextual_adjustment_eq_of (d1 d2 : Features) (ctx : Option Context)
    (hw : d1.workEdu = d2.workEdu) (hs : d1.socialMedia = d2.socialMedia)
    (he : d1.entertainment = d2.entertainment) :
    contextual_adjustment d1 ctx = contextual_adjustment d2 ctx := by
  cases ctx with
  | none => rfl
  | some c => simp only [contextual_adjustment, hw, hs, he]

/-- C4 counterexample: with an IT context, raising the work ordinal from 3
to 4 (all other inputs absent) lowers `total_risk` from 25 to 24, because
the IT work subtraction activates only at ordinal 4, so the claimed
monotonicity under every user context fails. -/
theorem c4_counterexample_it_work :
    (calculate_risk_scores { Features.empty with workEdu := some 3 }
        (some ⟨"", "IT", ""⟩)).total_risk = 25 ∧
    (calculate_risk_scores { Features.empty with workEdu := some 4 }
        (some ⟨"", "IT", ""⟩)).total_risk = 24 ∧
    ¬((calculate_risk_scores { Features.empty with workEdu := some 3 }
        (some ⟨"", "IT", ""⟩)).total_risk ≤
      (calculate_risk_scores { Features.empty with workEdu := some 4 }
        (some ⟨"", "IT", ""⟩)).total_risk) := by
  norm_num [calculate_risk_scores, contextual_adjustment, Features.empty]

/-- C4 amended: increasing any single risk-side ordinal (screen time, social
media, entertainment, stress, anxiety, eye strain, addiction) never
decreases `total_risk` under every context, and the same holds for the work
ordinal whenever the context does not carry field IT (with field IT the work
increase from 3 to 4 can decrease it, see the counterexample); increasing
the exercise, sleep-duration or sleep-quality ordinal never increases
`total_risk`. -/
theorem c4_amended_monotonicity (d : Features) (ctx : Option Context)
    (a b : ℚ) (hab : a ≤ b) :
    (calculate_risk_scores { d with screenTime := some a } ctx).total_risk ≤
      (calculate_risk_scores { d with screenTime := some b } ctx).total_risk ∧
    (calculate_risk_scores { d with socialMedia := some a } ctx).total_risk ≤
      (calculate_risk_scores { d with socialMedia := some b } ctx).total_risk ∧
    (calculate_risk_scores { d with entertainment := some a } ctx).total_risk ≤
      (calculate_risk_scores { d with entertainment := some b } ctx).total_risk ∧
    ((∀ c, ctx = some c → c.field ≠ "IT") →
      (calculate_risk_scores { d with workEdu := some a } ctx).total_risk ≤
        (calculate_risk_scores { d with workEdu := some b } ctx).total_risk) ∧
    (calculate_risk_scores { d with stress := some a } ctx).total_risk ≤
      (calculate_risk_scores { d with stress := some b } ctx).total_risk ∧
    (calculate_risk_scores { d with anxious := some a } ctx).total_risk ≤
      (calculate_risk_scores { d with anxious := some b } ctx).total_risk ∧
    (calculate_risk_scores { d with eyeStrain := some a } ctx).total_risk ≤
      (calculate_risk_scores { d with eyeStrain := some b } ctx).total_risk ∧
    (calculate_risk_scores { d with addicted := some a } ctx).total_risk ≤
      (calculate_risk_scores { d with addicted := some b } ctx).total_risk ∧
    (calculate_risk_scores { d with exercise := some b } ctx).total_risk ≤
      (calculate_risk_scores { d with exercise := some a } ctx).total_risk ∧
    (calculate_risk_scores { d with sleepDuration := some b } ctx).total_risk ≤
      (calculate_risk_scores { d with sleepDuration := some a } ctx).total_risk ∧
    (calculate_risk_scores { d with sleepQuality := some b } ctx).total_risk ≤
      (calculate_risk_scores { d with sleepQuality := some a } ctx).total_risk := by
  refine ⟨?_, ?_, ?_, ?_, ?_, ?_, ?_, ?_, ?_, ?_, ?_⟩
  · have hca := contextual_adjustment_eq_of { d with screenTime := some a }
      { d with screenTime := some b } ctx rfl rfl rfl
    simp only [calculate_risk_scores]
    refine max_le_max le_rfl ?_
    dsimp only [Option.getD_some]
    linarith
  · rcases ctx with _ | c
    · simp only [calculate_risk_scores, contextual_adjustment]
      refine max_le_max le_rfl ?_
      dsimp only [Option.getD_some]
      linarith
    · simp only [calculate_risk_scores, contextual_adjustment]
      refine max_le_max le_rfl ?_
      dsimp only [Option.getD_some]
      split_ifs <;> linarith
  · rcases ctx with _ | c
    · simp only [calculate_risk_scores, contextual_adjustment]
      refine max_le_max le_rfl ?_
      dsimp only [Option.getD_some]
      linarith
    · simp only [calculate_risk_scores, contextual_adjustment]
      refine max_le_max le_rfl ?_
      dsimp only [Option.getD_some]
      split_ifs <;> linarith
  · intro hno
    rcases ctx with _ | c
    · simp only [calculate_risk_scores, contextual_adjustment]
      refine max_le_max le_rfl ?_
      dsimp only [Option.getD_some]
      linarith
    · have hne := hno c rfl
      simp only [calculate_risk_scores, contextual_adjustment]
      refine max_le_max le_rfl ?_
      dsimp only [Option.getD_some]
      simp only [hne, if_false]
      split_ifs <;> linarith
  · have hca := contextual_adjustment_eq_of { d with stress := some a }
      { d with stress := some b } ctx rfl rfl rfl
    simp only [calculate_risk_scores]
    refine max_le_max le_rfl ?_
    dsimp only [Option.getD_some]
    linarith
  · have hca := contextual_adjustment_eq_of { d with anxious := some a }
      { d with anxious := some b } ctx rfl rfl rfl
    simp only [calculate_risk_scores]
    refine max_le_max le_rfl ?_
    dsimp only [Option.getD_some]
    linarith
  · have hca := contextual_adjustment_eq_of { d with eyeStrain := some a }
      { d with eyeStrain := some b } ctx rfl rfl rfl
    simp only [calculate_risk_scores]
    refine max_le_max le_rfl ?_
    dsimp only [Option.getD_some]
    linarith
  · have hca := contextual_adjustment_eq_of { d with addicted := some a }
      { d with addicted := some b } ctx rfl rfl rfl
    simp only [calculate_risk_scores]
    refine max_le_max le_rfl ?_
    dsimp only [Option.getD_some]
    linarith
  · have hca := contextual_adjustment_eq_of { d with exercise := some b }
      { d with exercise := some a } ctx rfl rfl rfl
    simp only [calculate_risk_scores]
    refine max_le_max le_rfl ?_
    dsimp only [Option.getD_some]
    linarith
  · have hca := contextual_adjustment_eq_of { d with sleepDuration := some b }
      { d with sleepDuration := some a } ctx rfl rfl rfl
    simp only [calculate_risk_scores]
    refine max_le_max le_rfl ?_
    dsimp only [Option.getD_some]
    linarith
  · have hca := contextual_adjustment_eq_of { d with sleepQuality := some b }
      { d with sleepQuality := some a } ctx rfl rfl rfl
    simp only [calculate_risk_scores]
    refine max_le_max le_rfl ?_
    dsimp only [Option.getD_some]
    linarith

/-- C4 witness: the amended monotonicity applied at a concrete increase,
screen time 1 to 2 and work 1 to 2, with no context. -/
theorem c4_amended_monotonicity_witness :
    (calculate_risk_scores { Features.empty with screenTime := some 1 } none).total_risk ≤
      (calculate_risk_scores { Features.empty with screenTime := some 2 } none).total_risk ∧
    (calculate_risk_scores { Features.empty with workEdu := some 1 } none).total_risk ≤
      (calculate_risk_scores { Features.empty with workEdu := some 2 } none).total_risk := by
  have h := c4_amended_monotonicity Features.empty none 1 2 (by decide)
  exact ⟨h.1, h.2.2.2.1 (fun c hc => nomatch hc)⟩

/-- Bounds of a defaulted dict read: a range-valid optional value read with
a default inside the enclosing range stays in the enclosing range. -/
theorem getD_bounds_of_inrange {o : Option ℚ} {lo hi lo2 hi2 dflt : ℚ}
    (h : InRange o lo hi) (h1 : lo2 ≤ dflt) (h2 : dflt ≤ hi2)
    (h3 : lo2 ≤ lo) (h4 : hi ≤ hi2) :
    lo2 ≤ o.getD dflt ∧ o.getD dflt ≤ hi2 := by
  cases o with
  | none => exact ⟨h1, h2⟩
  | some v =>
    have hb := h v rfl
    exact ⟨h3.trans hb.1, hb.2.trans h4⟩

/-- C7: `total_risk` is non-negative for every input, and for every input
whose present values lie in the documented valid ranges the three derived
indices lie in [0, 100]. -/
theorem c7_invariants (d : Features) (ctx : Option Context) :
    0 ≤ (calculate_risk_scores d ctx).total_risk ∧
    (ValidFeatures d →
      0 ≤ (calculate_risk_scores d ctx).screen_index ∧
      (calculate_risk_scores d ctx).screen_index ≤ 100 ∧
      0 ≤ (calculate_risk_scores d ctx).sleep_health ∧
      (calculate_risk_scores d ctx).sleep_health ≤ 100 ∧
      0 ≤ (calculate_risk_scores d ctx).wellbeing_score ∧
      (calculate_risk_scores d ctx).wellbeing_score ≤ 100) := by
  constructor
  · simp only [calculate_risk_scores]
    exact le_max_left 0 _
  · rintro ⟨-, -, -, -, hsd, hsb, -, had, hsq, hst, han, hey⟩
    have bsd := getD_bounds_of_inrange hsd (le_refl (0:ℚ)) (by norm_num) le_rfl le_rfl
    have bsb := getD_bounds_of_inrange hsb (le_refl (0:ℚ)) (by norm_num) le_rfl le_rfl
    have bad := getD_bounds_of_inrange had (le_refl (0:ℚ)) (by norm_num) le_rfl le_rfl
    have bsq := getD_bounds_of_inrange hsq (by norm_num : (1:ℚ) ≤ 3) (by norm_num) le_rfl le_rfl
    have bst := getD_bounds_of_inrange hst (le_refl (0:ℚ)) (by norm_num) (by norm_num) le_rfl
    have ban := getD_bounds_of_inrange han (le_refl (0:ℚ)) (by norm_num) (by norm_num) le_rfl
    have bey := getD_bounds_of_inrange hey (le_refl (0:ℚ)) (by norm_num) (by norm_num) le_rfl
    simp only [calculate_risk_scores]
    refine ⟨le_min (by norm_num) (le_max_left 0 _), min_le_left _ _,
      le_max_left 0 _, max_le (by norm_num) (by nlinarith [bsd.2, bsq.2, bsb.1]),
      le_max_left 0 _, max_le (by norm_num) (by nlinarith [bst.1, ban.1, bey.1, bad.1])⟩

/-- C7 witness: the invariants at the all-absent input (every present-value
range condition holds vacuously) with no context. -/
theorem c7_invariants_witness :
    ValidFeatures Features.empty ∧
    0 ≤ (calculate_risk_scores Features.empty none).total_risk ∧
    0 ≤ (calculate_risk_scores Features.empty none).screen_index ∧
    (calculate_risk_scores Features.empty none).screen_index ≤ 100 ∧
    0 ≤ (calculate_risk_scores Features.empty none).sleep_health ∧
    (calculate_risk_scores Features.empty none).sleep_health ≤ 100 ∧
    0 ≤ (calculate_risk_scores Features.empty none).wellbeing_score ∧
    (calculate_risk_scores Features.empty none).wellbeing_score ≤ 100 := by
  have hv : ValidFeatures Features.empty := by
    simp only [ValidFeatures]
    refine ⟨?_, ?_, ?_, ?_, ?_, ?_, ?_, ?_, ?_, ?_, ?_, ?_⟩ <;>
      exact fun v h => nomatch h
  obtain ⟨p1, p2⟩ := c7_invariants Features.empty none
  obtain ⟨q1, q2, q3, q4, q5, q6⟩ := p2 hv
  exact ⟨hv, p1, q1, q2, q3, q4, q5, q6⟩

/-- A lookup over an association list none of whose keys is the query
returns nothing. -/
theorem lookup_eq_none_of_all_ne (vocab : List (String × ℚ)) (s : String)
    (h : ∀ p ∈ vocab, p.1 ≠ s) : vocab.lookup s = none := by
  induction vocab with
  | nil => rfl
  | cons hd tl ih =>
    have hne : (s == hd.1) = false :=
      beq_eq_false_iff_ne.mpr (Ne.symm (h hd (List.mem_cons_self hd tl)))
    have hrest := ih (fun p hp => h p (List.mem_cons_of_mem hd hp))
    simp [List.lookup, hne, hrest]

/-- A key carrying an ordinal vocabulary is never a frontend key of the
renaming table. -/
theorem ordinal_key_not_frontend (k : String) (vocab : List (String × ℚ))
    (hk : ordinal_mappings k = some vocab) :
    (field_mapping.any fun p => p.1 = k) = false := by
  simp only [ordinal_mappings] at hk
  split_ifs at hk with h1 h2 h3 h4 h5 h6 h7 h8
  · subst h1; decide
  · subst h2; decide
  · subst h3; decide
  · subst h4; decide
  · subst h5; decide
  · subst h6; decide
  · subst h7; decide
  · subst h8; decide

/-- C2: for every canonical feature with an ordinal vocabulary,
`preprocess_input` maps every documented label, in both its en-dash and
hyphen variant, to the documented integer; any other string value of such a
feature maps to 0; and a value of a field without a vocabulary passes
through unchanged (any numeric value, and any string value when no label
encoders are loaded). -/
theorem c2_ordinal_mapping_totality :
    (∀ e ∈ doc_table,
      preprocess_input none (singleton_input e.1 (.str e.2.1)) e.1 =
        some (.num e.2.2)) ∧
    (∀ k vocab, ordinal_mappings k = some vocab →
      ∀ s, (∀ p ∈ vocab, p.1 ≠ s) →
        preprocess_input none (singleton_input k (.str s)) k = some (.num 0)) ∧
    (∀ enc k q, ordinal_mappings k = none → (∀ p ∈ field_mapping, p.1 ≠ k) →
      preprocess_input enc (singleton_input k (.num q)) k = some (.num q)) ∧
    (∀ k s, ordinal_mappings k = none → (∀ p ∈ field_mapping, p.1 ≠ k) →
      preprocess_input none (singleton_input k (.str s)) k = some (.str s)) := by
  refine ⟨by decide, ?_, ?_, ?_⟩
  · intro k vocab hk s hs
    have hkf := ordinal_key_not_frontend k vocab hk
    have hnone := lookup_eq_none_of_all_ne vocab s hs
    simp [preprocess_input, mapped_data, singleton_input, hkf, hk, vocab_lookup, hnone]
  · intro enc k q hk hkf
    have hf : (field_mapping.any fun p => p.1 = k) = false := by
      simp only [List.any_eq_false, decide_eq_true_eq]
      exact hkf
    simp [preprocess_input, mapped_data, singleton_input, hf, hk]
  · intro k s hk hkf
    have hf : (field_mapping.any fun p => p.1 = k) = false := by
      simp only [List.any_eq_false, decide_eq_true_eq]
      exact hkf
    simp [preprocess_input, mapped_data, singleton_input, hf, hk]

/-- C2 witness: a hyphen-variant label of a recognized feature maps to its
documented ordinal, an unknown label maps to 0, and values of fields without
a vocabulary pass through. -/
theorem c2_ordinal_mapping_totality_witness :
    preprocess_input none
      (singleton_input "Average total screen time per day" (.str "3-4 hours"))
      "Average total screen time per day" = some (.num 2) ∧
    preprocess_input none (singleton_input "Use screen before sleep" (.str "sometimes"))
      "Use screen before sleep" = some (.num 0) ∧
    preprocess_input none (singleton_input "occupation" (.num 7)) "occupation" =
      some (.num 7) ∧
    preprocess_input none (singleton_input "occupation" (.str "Student")) "occupation" =
      some (.str "Student") := by
  obtain ⟨p1, p2, p3, p4⟩ := c2_ordinal_mapping_totality
  exact ⟨p1 ("Average total screen time per day", "3-4 hours", 2) (by decide),
    p2 "Use screen before sleep" screen_sleep_vocab rfl "sometimes" (by decide),
    p3 none "occupation" 7 rfl (by decide),
    p4 "occupation" "Student" rfl (by decide)⟩

/-- C3 counterexample: with no model loaded, `predict` on an input whose
stress answer is the non-numeric string "high" raises (the risk arithmetic
fails before the fallback classification), so an exception does reach the
caller and the constant fallback result is not returned. -/
theorem c3_counterexample_malformed_input :
    predict none none (singleton_input "stress" (.str "high")) = .error () := rfl

/-- C3 amended: provided the risk-score arithmetic succeeds on the
preprocessed input (every numeric slot absent or a number), whenever no
model is loaded, and whenever the model invocation fails, `predict` returns
exactly the rule-based fallback, `is_healthy` iff `total_risk < 50` with
confidence 0.75, and no exception reaches the caller. -/
theorem c3_amended_fallback (model : Option Model) (enc : Option LabelEncoders)
    (u : UserData) (f : Features)
    (hf : features_of_num (preprocess_input enc u) = .ok f)
    (hm : model = none ∨ ∃ m, model = some m ∧ m f = .error ()) :
    predict model enc u =
      .ok ⟨decide ((calculate_risk_scores f (some (context_of u))).total_risk < 50),
        3/4, calculate_risk_scores f (some (context_of u)), f⟩ := by
  rcases hm with rfl | ⟨m, rfl, herr⟩
  · simp [predict, hf]
  · simp [predict, hf, herr]

/-- C3 witness: the fallback result on the all-absent input with no model. -/
theorem c3_amended_fallback_witness :
    features_of_num (preprocess_input none empty_input) = .ok Features.empty ∧
    predict none none empty_input =
      .ok ⟨decide ((calculate_risk_scores Features.empty
          (some (context_of empty_input))).total_risk < 50), 3/4,
        calculate_risk_scores Features.empty (some (context_of empty_input)),
        Features.empty⟩ :=
  ⟨rfl, c3_amended_fallback none none empty_input Features.empty rfl (Or.inl rfl)⟩

/-- Python list.insert always grows the list by one (the clamped index is
always in range). -/
theorem length_py_insert (l : List String) (i : ℕ) (x : String) :
    (py_insert l i x).length = l.length + 1 := by
  unfold py_insert
  exact List.length_insertIdx _ _ (min_le_right i l.length)

/-- A conditional extend never shrinks the list. -/
theorem length_le_add_if {c : Prop} [Decidable c] {xs l : List String} :
    l.length ≤ (add_if c xs l).length := by
  unfold add_if
  split_ifs <;> simp

/-- A conditional insert never shrinks the list. -/
theorem length_le_insert_if {c : Prop} [Decidable c] {i : ℕ} {x : String}
    {l : List String} : l.length ≤ (insert_if c i x l).length := by
  unfold insert_if
  split_ifs with h
  · rw [length_py_insert]; omega
  · exact le_rfl

/-- A conditional extend preserves non-emptiness. -/
theorem pos_add_if {c : Prop} [Decidable c] {xs l : List String}
    (h : 0 < l.length) : 0 < (add_if c xs l).length :=
  lt_of_lt_of_le h length_le_add_if

/-- A conditional insert preserves non-emptiness. -/
theorem pos_insert_if {c : Prop} [Decidable c] {i : ℕ} {x : String}
    {l : List String} (h : 0 < l.length) : 0 < (insert_if c i x l).length :=
  lt_of_lt_of_le h length_le_insert_if

/-- Every arm of the total-screen-time wellness ladder is non-empty. -/
theorem wellness_base_pos (t : String) : 0 < (wellness_base t).length := by
  unfold wellness_base
  split_ifs <;> simp

/-- Every arm of the social-media app-lock ladder is non-empty. -/
theorem app_lock_base_pos (s : String) : 0 < (app_lock_base s).length := by
  unfold app_lock_base
  split_ifs <;> simp

/-- Every arm of the stress/anxiety meditation ladder extends the list. -/
theorem meditation_ladder_pos (s a : ℤ) (l : List String) :
    0 < (meditation_ladder s a l).length := by
  unfold meditation_ladder
  split_ifs <;> simp

/-- Every arm of the addiction ladder extends the list. -/
theorem addiction_ladder_pos (a : String) (l : List String) :
    0 < (addiction_ladder a l).length := by
  unfold addiction_ladder
  split_ifs <;> simp

/-- The exercise ladder never shrinks the list. -/
theorem length_le_exercise_ladder {e : String} {l : List String} :
    l.length ≤ (exercise_ladder e l).length := by
  unfold exercise_ladder
  split_ifs <;> simp [length_py_insert]

/-- The exercise ladder preserves non-emptiness. -/
theorem pos_exercise_ladder {e : String} {l : List String}
    (h : 0 < l.length) : 0 < (exercise_ladder e l).length :=
  lt_of_lt_of_le h length_le_exercise_ladder

/-- The age ladder never shrinks the list. -/
theorem length_le_age_ladder {g o f : String} {l : List String} :
    l.length ≤ (age_ladder g o f l).length := by
  unfold age_ladder
  split_ifs <;> simp

/-- The age ladder preserves non-emptiness. -/
theorem pos_age_ladder {g o f : String} {l : List String}
    (h : 0 < l.length) : 0 < (age_ladder g o f l).length :=
  lt_of_lt_of_le h length_le_age_ladder

/-- The wellness pipeline always produces a non-empty list. -/
theorem general_wellness_pos (t : String) (sl : ℤ) (sb f w o : String) :
    0 < (general_wellness_of t sl sb f w o).length := by
  unfold general_wellness_of
  exact pos_add_if (pos_insert_if (pos_add_if (pos_add_if (pos_add_if (pos_add_if
    (pos_add_if (pos_add_if (pos_add_if (pos_add_if (pos_add_if (pos_insert_if
      (wellness_base_pos t))))))))))))

/-- The app-lock pipeline always produces a non-empty list. -/
theorem app_lock_pos (s e f w o : String) :
    0 < (app_lock_of s e f w o).length := by
  unfold app_lock_of
  exact pos_insert_if (pos_add_if (pos_add_if (pos_add_if (pos_insert_if
    (app_lock_base_pos s)))))

/-- The meditation pipeline always produces a non-empty list. -/
theorem meditation_pos (f w : String) (s a e q : ℤ) (ex : String) :
    0 < (meditation_of f w s a e q ex).length := by
  unfold meditation_of
  exact pos_insert_if (pos_add_if (pos_insert_if (pos_exercise_ladder (pos_add_if
    (pos_insert_if (meditation_ladder_pos s a _))))))

/-- The parental pipeline always produces a non-empty list. -/
theorem parental_pos (o f w a g : String) (tr : ℚ) :
    0 < (parental_of o f w a g tr).length := by
  unfold parental_of
  exact pos_insert_if (pos_insert_if (pos_insert_if (pos_age_ladder
    (addiction_ladder_pos a _))))

/-- A safe value always converts. -/
theorem py_int_ok (v : Option Value) (dflt : ℤ) (h : int_safe v) :
    ∃ n, py_int v dflt = .ok n := by
  match v with
  | none => exact ⟨dflt, rfl⟩
  | some (.num q) => exact ⟨rat_trunc q, rfl⟩
  | some (.str s) =>
    obtain ⟨n, hn⟩ := Option.isSome_iff_exists.mp h
    exact ⟨n, by simp [py_int, hn]⟩

/-- C8 counterexample: `generate_recommendations` raises on an input whose
stress answer is the non-numeric string "high" (the `int()` conversion
fails), so malformed scale answers are rejected, not absorbed. -/
theorem c8_counterexample_nonnumeric :
    generate_recommendations
      ⟨true, 3/4, calculate_risk_scores Features.empty none, Features.empty⟩
      (singleton_input "stress" (.str "high")) = .error () := rfl

/-- C8 amended: `generate_recommendations` is total (returns a value, never
raises) provided each of the four 1–5 scale answers is absent, numeric, or
an integer-parsable string; normalize never raises by construction, while a
non-numeric scale string makes both scoring and recommendation generation
raise. -/
theorem c8_amended_totality (p : PredictOut) (u : UserData)
    (h1 : int_safe (u "stress")) (h2 : int_safe (u "anxious"))
    (h3 : int_safe (u "eyeStrain")) (h4 : int_safe (u "sleepQuality")) :
    ∃ r, generate_recommendations p u = .ok r := by
  obtain ⟨n1, e1⟩ := py_int_ok (u "stress") 3 h1
  obtain ⟨n2, e2⟩ := py_int_ok (u "anxious") 3 h2
  obtain ⟨n3, e3⟩ := py_int_ok (u "eyeStrain") 3 h3
  obtain ⟨n4, e4⟩ := py_int_ok (u "sleepQuality") 3 h4
  refine ⟨build_recommendations p u n1 n2 n3 n4, ?_⟩
  simp only [generate_recommendations, e1, e2, e3, e4]

/-- C8 witness: the totality at the all-absent input. -/
theorem c8_amended_totality_witness :
    int_safe (empty_input "stress") ∧
    ∃ r, generate_recommendations
      ⟨true, 3/4, calculate_risk_scores Features.empty none, Features.empty⟩
      empty_input = .ok r :=
  ⟨True.intro, c8_amended_totality _ empty_input True.intro True.intro
    True.intro True.intro⟩

/-- C9 counterexample: the app.py engine returns its seven-key mapping with
the work-screen category empty on every input — here at the all-absent
input — so "no category list is ever entirely empty" fails. -/
theorem c9_counterexample_empty_category :
    generate_recommendations
      ⟨true, 3/4, calculate_risk_scores Features.empty none, Features.empty⟩
      empty_input =
      .ok (build_recommendations
        ⟨true, 3/4, calculate_risk_scores Features.empty none, Features.empty⟩
        empty_input 3 3 3 3) ∧
    (build_recommendations
      ⟨true, 3/4, calculate_risk_scores Features.empty none, Features.empty⟩
      empty_input 3 3 3 3).work_screen_recommendations = [] :=
  ⟨rfl, rfl⟩

/-- C9 amended: every successful result of `generate_recommendations`
carries all seven category keys; the wellness, app-lock, meditation and
parental lists are never empty, while the work-screen, social-media and
entertainment lists of the app.py engine are always empty (initialized
and never filled). -/
theorem c9_amended_category_shape (p : PredictOut) (u : UserData)
    (r : Recommendations) (h : generate_recommendations p u = .ok r) :
    r.work_screen_recommendations = [] ∧
    r.social_media_recommendations = [] ∧
    r.entertainment_recommendations = [] ∧
    r.general_wellness_tips ≠ [] ∧
    r.app_lock_suggestions ≠ [] ∧
    r.meditation_exercises ≠ [] ∧
    r.parental_controls ≠ [] := by
  simp only [generate_recommendations] at h
  cases e1 : py_int (u "stress") 3 with
  | error e => rw [e1] at h; exact nomatch h
  | ok n1 =>
  rw [e1] at h
  cases e2 : py_int (u "anxious") 3 with
  | error e => rw [e2] at h; exact nomatch h
  | ok n2 =>
  rw [e2] at h
  cases e3 : py_int (u "eyeStrain") 3 with
  | error e => rw [e3] at h; exact nomatch h
  | ok n3 =>
  rw [e3] at h
  cases e4 : py_int (u "sleepQuality") 3 with
  | error e => rw [e4] at h; exact nomatch h
  | ok n4 =>
  rw [e4] at h
  cases h
  refine ⟨rfl, rfl, rfl, ?_, ?_, ?_, ?_⟩ <;>
    simp only [build_recommendations] <;>
    rw [← List.length_pos_iff_ne_nil]
  · exact general_wellness_pos _ _ _ _ _ _
  · exact app_lock_pos _ _ _ _ _
  · exact meditation_pos _ _ _ _ _ _ _
  · exact parental_pos _ _ _ _ _ _

/-- C9 witness: the category shape at the all-absent input. -/
theorem c9_amended_category_shape_witness :
    generate_recommendations
      ⟨false, 3/4, calculate_risk_scores Features.empty none, Features.empty⟩
      empty_input =
      .ok (build_recommendations
        ⟨false, 3/4, calculate_risk_scores Features.empty none, Features.empty⟩
        empty_input 3 3 3 3) ∧
    (build_recommendations
      ⟨false, 3/4, calculate_risk_scores Features.empty none, Features.empty⟩
      empty_input 3 3 3 3).general_wellness_tips ≠ [] :=
  ⟨rfl, (c9_amended_category_shape _ empty_input _ rfl).2.2.2.1⟩

end ScreenTime
